import Mathlib

/-!
Shallow embedding of the Med_App ("Nexus Clinical") single-page form.

Sources embedded here:
* `src/App.tsx` — BMI derivation, age input/blur handlers, the `NumberInput`
  length cap, the scroll-spy handler, and `scrollToSection` (navigation click).
* `src/unnamed/part_001` (`components/FormElements`) — the custom `Select`
  dropdown: selection, open/close, outside-click/scroll/resize closing, and
  keyboard roving on the open menu.

Modelling conventions:
* JS numbers are modelled as exact rationals (`ℚ`) or integers (`ℤ`); the
  claims settled here do not depend on binary floating-point rounding.
* `parseFloat` / `parseInt(·, 10)` are modelled on decimal strings with the
  JS prefix-parsing semantics (leading whitespace skipped, optional sign,
  digits, optional fraction and exponent, trailing garbage ignored, `none`
  for NaN).  The special values `Infinity`/`NaN` literals are not modelled;
  no claim involves them.
* React state updates are modelled as pure state-transition functions; the
  `setTimeout` callbacks of `scrollToSection` are modelled as separate
  transition functions (one per timer phase), with emitted browser commands
  (`window.scrollTo`) returned explicitly.
-/

namespace MedApp

/-! ### JS numeric string parsing (`parseFloat`, `parseInt(s, 10)`) -/

/-- Split a character list into its leading run of decimal digits and the rest. -/
def leadDigits : List Char → List Char × List Char
  | [] => ([], [])
  | c :: cs =>
      if c.isDigit then
        let p := leadDigits cs
        (c :: p.1, p.2)
      else ([], c :: cs)

/-- Numeric value of a list of decimal digits (most significant first). -/
def digitsVal (ds : List Char) : ℕ :=
  ds.foldl (fun a c => 10 * a + (c.toNat - 48)) 0

/-- Consume an optional leading sign; returns (isNegative, rest). -/
def parseSign : List Char → Bool × List Char
  | '-' :: cs => (true, cs)
  | '+' :: cs => (false, cs)
  | cs => (false, cs)

/-- The syntactic content of a successfully parsed float literal: sign,
integer digits, fraction digits (value and count), and exponent (sign and
value; `expVal = 0` when no exponent is present). -/
structure FloatLit where
  neg : Bool
  intPart : ℕ
  fracPart : ℕ
  fracLen : ℕ
  expNeg : Bool
  expVal : ℕ
deriving DecidableEq

/-- Syntactic stage of JS `parseFloat`: leading whitespace, optional sign,
decimal digits with optional fraction and optional exponent, trailing
garbage ignored; `none` models NaN. -/
def parseFloatLit (s : String) : Option FloatLit :=
  let cs0 := s.data.dropWhile Char.isWhitespace
  let sgn := parseSign cs0
  let ip := leadDigits sgn.2
  let fp : List Char × List Char :=
    match ip.2 with
    | '.' :: rest => leadDigits rest
    | _ => ([], ip.2)
  if ip.1.isEmpty ∧ fp.1.isEmpty then none
  else
    let base : FloatLit :=
      { neg := sgn.1, intPart := digitsVal ip.1, fracPart := digitsVal fp.1,
        fracLen := fp.1.length, expNeg := false, expVal := 0 }
    match fp.2 with
    | c :: rest =>
        if c = 'e' ∨ c = 'E' then
          let esgn := parseSign rest
          let eds := (leadDigits esgn.2).1
          if eds.isEmpty then some base
          else some { base with expNeg := esgn.1, expVal := digitsVal eds }
        else some base
    | [] => some base

/-- Numeric value of a parsed float literal. -/
def FloatLit.toRat (f : FloatLit) : ℚ :=
  let mant : ℚ := (f.intPart : ℚ) + (f.fracPart : ℚ) / (10 : ℚ) ^ f.fracLen
  let signedMant := if f.neg then -mant else mant
  if f.expNeg then signedMant / (10 : ℚ) ^ f.expVal
  else signedMant * (10 : ℚ) ^ f.expVal

/-- Model of JS `parseFloat`; `none` models NaN. -/
def parseFloat (s : String) : Option ℚ :=
  (parseFloatLit s).map FloatLit.toRat

/-- Model of JS `parseInt(s, 10)`: leading whitespace, optional sign, leading
decimal digits; `none` models NaN. -/
def parseInt10 (s : String) : Option ℤ :=
  let cs0 := s.data.dropWhile Char.isWhitespace
  let sgn := parseSign cs0
  let ds := (leadDigits sgn.2).1
  if ds.isEmpty then none
  else if sgn.1 then some (-(digitsVal ds : ℤ))
  else some (digitsVal ds : ℤ)

/-- Model of JS `Number.prototype.toFixed(1)` as a rational: round to one
decimal place, ties to the larger value (the ECMA-262 rule). -/
def toFixed1 (q : ℚ) : ℚ := (round (q * 10) : ℚ) / 10

/-! ### BMI derivation (`App.tsx`, the BMI `useEffect`) -/

/-- Recompute the BMI display state from the height and weight input strings.
`some b` means the display shows `b` (already `toFixed(1)`-rounded in
`bmiDisplay`); `none` means `setBmi(null)`, rendered as the placeholder. -/
def bmiUpdate (height weight : String) : Option ℚ :=
  if height = "" ∨ weight = "" then none
  else
    match parseFloat height, parseFloat weight with
    | some h, some w =>
        if h = 0 then none
        else
          let heightInMeters := h / 100
          let bmiValue := w / (heightInMeters * heightInMeters)
          if 0 < bmiValue ∧ bmiValue < 100 then some bmiValue else none
    | _, _ => none

/-- The displayed BMI value (`bmiValue.toFixed(1)`), or `none` for the
placeholder `--.-`. -/
def bmiDisplay (height weight : String) : Option ℚ :=
  (bmiUpdate height weight).map toFixed1

/-! ### Age field (`App.tsx`, `handleAgeChange` / `handleAgeBlur`) -/

/-- The test `/^\d+$/.test(val)`: nonempty and all characters decimal digits. -/
def regexAllDigits (s : String) : Bool :=
  !s.data.isEmpty && s.data.all Char.isDigit

/-- `handleAgeChange`: commit the new value only if it is empty or all digits;
otherwise the previous state is kept. -/
def handleAgeChange (age val : String) : String :=
  if val = "" ∨ regexAllDigits val = true then val else age

/-- `handleAgeBlur`: if the committed value parses as a year in
`(1900, currentYear]`, replace it by the age `currentYear - year`. -/
def handleAgeBlur (currentYear : ℤ) (age : String) : String :=
  if age = "" then age
  else
    match parseInt10 age with
    | none => age
    | some num =>
        if 1900 < num ∧ num ≤ currentYear then toString (currentYear - num)
        else age

/-! ### `NumberInput` soft length cap (`App.tsx`, `handleInput`) -/

/-- The `onInput` handler of `NumberInput`: empty values returned unchanged;
values longer than 10 characters are truncated to their first 10 characters
(`val.slice(0, 10)`); everything else is left as typed. -/
def numberInputOnInput (val : String) : String :=
  if val = "" then val
  else if 10 < val.length then val.take 10 else val

/-! ### Scroll spy and navigation (`App.tsx`) -/

/-- The fixed section order of the `SECTIONS` configuration array. -/
def SECTIONS : List String :=
  ["identity", "concern", "hpi", "ros", "background", "exam", "plan"]

/-- Observed layout of a section element: `offsetTop` and `offsetHeight`. -/
structure Elem where
  offsetTop : ℤ
  offsetHeight : ℤ
deriving DecidableEq

/-- The `App` state touched by the scroll spy and navigation handlers. -/
structure AppState where
  activeSectionId : String
  expandedSections : String → Bool
  isManualScrolling : Bool

/-- One iteration of the `for (const section of SECTIONS)` loop body of the
scroll-spy handler: overwrite `current` with this section's id when the
trigger point lies in its adjusted window. -/
def spySectionStep (layout : String → Option Elem) (triggerPoint : ℤ)
    (current : String) (sid : String) : String :=
  match layout sid with
  | none => current
  | some el =>
      let adjustedTop := el.offsetTop - 140
      if adjustedTop ≤ triggerPoint ∧
          triggerPoint < adjustedTop + el.offsetHeight + 100 then sid
      else current

/-- The loop of the scroll-spy handler: fold the per-section step over the
fixed section order, starting from the previously active section. -/
def spyCompute (layout : String → Option Elem) (scrollY : ℤ) (active : String) :
    String :=
  let triggerPoint := scrollY + 300
  SECTIONS.foldl (spySectionStep layout triggerPoint) active

/-- Decision of whether one section's adjusted window contains the trigger
point (false when the section element is absent from the document). -/
def spyWindowHit (layout : String → Option Elem) (scrollY : ℤ) (sid : String) :
    Bool :=
  match layout sid with
  | none => false
  | some el =>
      let adjustedTop := el.offsetTop - 140
      decide (adjustedTop ≤ scrollY + 300 ∧
        scrollY + 300 < adjustedTop + el.offsetHeight + 100)

/-- The scroll-spy `handleScroll` event handler: bail out while the manual
scroll lock is set, otherwise recompute the active section from the layout. -/
def handleScroll (layout : String → Option Elem) (scrollY : ℤ) (s : AppState) :
    AppState :=
  if s.isManualScrolling then s
  else
    let current := spyCompute layout scrollY s.activeSectionId
    if current = s.activeSectionId then s
    else { s with activeSectionId := current }

/-- The synchronous part of `scrollToSection(id)`: early-return when `id` is
already active; otherwise set the manual-scroll lock, activate `id`, expand
it, and schedule the settle-delay timer (the returned flag). -/
def scrollToSectionClick (s : AppState) (id : String) : AppState × Bool :=
  if s.activeSectionId = id then (s, false)
  else
    ({ activeSectionId := id,
       expandedSections := fun k => if k = id then true else s.expandedSections k,
       isManualScrolling := true }, true)

/-- A `window.scrollTo` request. -/
structure ScrollCmd where
  top : ℤ
  smooth : Bool
deriving DecidableEq

/-- The settle-delay (50 ms) timer callback of `scrollToSection`: if the
section element exists, emit a smooth scroll to its document top
(`rect.top + pageYOffset`) plus the `-110` header offset and schedule the
800 ms unlock timer (the returned flag); otherwise clear the lock at once. -/
def scrollToSectionTimeout (s : AppState) (id : String)
    (rectTop : String → Option ℤ) (pageYOffset : ℤ) :
    AppState × Option ScrollCmd × Bool :=
  match rectTop id with
  | some t =>
      let yOffset : ℤ := -110
      let y := t + pageYOffset + yOffset
      (s, some { top := y, smooth := true }, true)
  | none => ({ s with isManualScrolling := false }, none, false)

/-- The 800 ms unlock timer callback: clear the manual-scroll lock. -/
def scrollUnlockTimeout (s : AppState) : AppState :=
  { s with isManualScrolling := false }

/-! ### The `Select` dropdown (`components/FormElements`) -/

/-- Keyboard keys distinguished by the `Select` handlers. -/
inductive MenuKey where
  | arrowDown
  | arrowUp
  | homeKey
  | endKey
  | escape
  | tab
  | enter
  | spaceKey
  | other
deriving DecidableEq

/-- State of one `Select` instance (uncontrolled mode: the component owns the
selected value in `internalSelected`).  `focusRequest` records the option
index last handed to `focusOption`; `coords` is the captured trigger anchor. -/
structure SelectState where
  isOpen : Bool
  internalSelected : String
  activeIndex : ℤ
  focusRequest : Option ℤ
  coords : ℤ × ℤ × ℤ
deriving DecidableEq

/-- JS `%` on integers (remainder truncated toward zero). -/
def jsMod (a b : ℤ) : ℤ := Int.tmod a b

/-- `handleSelect`: commit the clicked option and close the list. -/
def handleSelect (s : SelectState) (val : String) : SelectState :=
  { s with internalSelected := val, isOpen := false }

/-- The trigger button's bounding-box data read by `openDropdown`. -/
structure TriggerRect where
  bottom : ℤ
  left : ℤ
  width : ℤ
deriving DecidableEq

/-- `openDropdown`: capture the anchor coordinates and open. -/
def openDropdown (s : SelectState) (r : TriggerRect) : SelectState :=
  { s with coords := (r.bottom + 8, r.left, r.width), isOpen := true }

/-- `closeDropdown`. -/
def closeDropdown (s : SelectState) : SelectState := { s with isOpen := false }

/-- `toggleDropdown`. -/
def toggleDropdown (s : SelectState) (r : TriggerRect) : SelectState :=
  if s.isOpen then closeDropdown s else openDropdown s r

/-- The document-level `mousedown` listener (attached while open): close
unless the click landed inside the trigger container or the portal menu. -/
def handleGlobalClick (s : SelectState) (insideContainer insideMenu : Bool) :
    SelectState :=
  if insideContainer then s
  else if insideMenu then s
  else { s with isOpen := false }

/-- The window `scroll`/`resize` listener (attached while open): close. -/
def selectCloseOnScroll (s : SelectState) : SelectState :=
  if s.isOpen then { s with isOpen := false } else s

/-- JS `Array.prototype.indexOf`: index of the value, `-1` when absent. -/
def jsIndexOf (l : List String) (v : String) : ℤ :=
  match l.indexOf? v with
  | some i => (i : ℤ)
  | none => -1

/-- Initial active index on opening: the selected option's index when the
selected value is nonempty and present, else `0`. -/
def selectInitialIndex (options : List String) (selectedValue : String) : ℤ :=
  let selectedIndex := if selectedValue ≠ "" then jsIndexOf options selectedValue else -1
  if 0 ≤ selectedIndex then selectedIndex else 0

/-- The `isOpen` effect: on opening, reset the active index to the selected
option and focus it; on closing, drop any pending option focus request. -/
def selectOpenEffect (options : List String) (s : SelectState) : SelectState :=
  if s.isOpen then
    let initialIndex := selectInitialIndex options s.internalSelected
    { s with activeIndex := initialIndex, focusRequest := some initialIndex }
  else { s with focusRequest := none }

/-- `handleButtonKeyDown` (the trigger's keydown handler). -/
def handleButtonKeyDown (options : List String) (s : SelectState) (k : MenuKey)
    (r : TriggerRect) : SelectState :=
  if k = MenuKey.enter ∨ k = MenuKey.spaceKey ∨ k = MenuKey.arrowDown ∨
      k = MenuKey.arrowUp then
    if s.isOpen = false then
      openDropdown { s with activeIndex := selectInitialIndex options s.internalSelected } r
    else if k = MenuKey.arrowDown ∨ k = MenuKey.arrowUp then
      { s with focusRequest := some s.activeIndex }
    else closeDropdown s
  else s

/-- `handleMenuKeyDown` (the open list's keydown handler): circular roving on
ArrowDown/ArrowUp, Home/End jumps, Escape/Tab close; no-op on an empty
option list. -/
def handleMenuKeyDown (options : List String) (s : SelectState) (k : MenuKey) :
    SelectState :=
  if options.length = 0 then s
  else
    match k with
    | MenuKey.arrowDown =>
        let next := jsMod (s.activeIndex + 1) (options.length : ℤ)
        { s with activeIndex := next, focusRequest := some next }
    | MenuKey.arrowUp =>
        let next := jsMod (s.activeIndex - 1 + (options.length : ℤ)) (options.length : ℤ)
        { s with activeIndex := next, focusRequest := some next }
    | MenuKey.homeKey => { s with activeIndex := 0, focusRequest := some 0 }
    | MenuKey.endKey =>
        let lastIndex := (options.length : ℤ) - 1
        { s with activeIndex := lastIndex, focusRequest := some lastIndex }
    | MenuKey.escape => closeDropdown s
    | MenuKey.tab => closeDropdown s
    | _ => s

/-- Every event a `Select` instance reacts to. -/
inductive SelectEvent where
  | select (val : String)
  | toggle (r : TriggerRect)
  | buttonKey (k : MenuKey) (r : TriggerRect)
  | menuKey (k : MenuKey)
  | globalClick (insideContainer insideMenu : Bool)
  | windowScroll
  | windowResize
  | openEffect

/-- Dispatch of a `Select` event to its handler. -/
def selectStep (options : List String) (s : SelectState) (e : SelectEvent) :
    SelectState :=
  match e with
  | SelectEvent.select val => handleSelect s val
  | SelectEvent.toggle r => toggleDropdown s r
  | SelectEvent.buttonKey k r => handleButtonKeyDown options s k r
  | SelectEvent.menuKey k => handleMenuKeyDown options s k
  | SelectEvent.globalClick c m => handleGlobalClick s c m
  | SelectEvent.windowScroll => selectCloseOnScroll s
  | SelectEvent.windowResize => selectCloseOnScroll s
  | SelectEvent.openEffect => selectOpenEffect options s

/-! ### Concrete instances used by witnesses -/

/-- A two-section layout for exercising the scroll spy. -/
def layoutW : String → Option Elem := fun sid =>
  if sid = "identity" then some { offsetTop := 0, offsetHeight := 400 }
  else if sid = "concern" then some { offsetTop := 500, offsetHeight := 300 }
  else none

/-- An unlocked app state with `identity` active. -/
def stateW : AppState :=
  { activeSectionId := "identity", expandedSections := fun _ => false,
    isManualScrolling := false }

/-- A locked app state. -/
def lockedS : AppState :=
  { activeSectionId := "identity", expandedSections := fun _ => false,
    isManualScrolling := true }

/-- An app state with `exam` active but collapsed. -/
def noopS0 : AppState :=
  { activeSectionId := "exam", expandedSections := fun _ => false,
    isManualScrolling := false }

/-- Bounding-rect tops: only `hpi` is in the document, at 1000. -/
def navRect : String → Option ℤ := fun sid =>
  if sid = "hpi" then some 1000 else none

/-- The gender options of the `Select` in `App.tsx`. -/
def selOptions : List String := ["Female", "Male", "Other"]

/-- An open dropdown with `Male` selected. -/
def selS0 : SelectState :=
  { isOpen := true, internalSelected := "Male", activeIndex := 1,
    focusRequest := none, coords := (0, 0, 0) }

/-- An open dropdown with focus on the last of the three options. -/
def selWrapS : SelectState :=
  { isOpen := true, internalSelected := "", activeIndex := 2,
    focusRequest := none, coords := (0, 0, 0) }

/-! ## Helper lemmas -/

/-- A fold that overwrites the accumulator with every element satisfying `p`
computes the last satisfying element, defaulting to the initial value. -/
theorem foldl_lastMatch {α : Type} (p : α → Bool) :
    ∀ (l : List α) (a : α),
      l.foldl (fun cur x => if p x then x else cur) a
        = ((l.filter p).getLast?).getD a := by
  intro l
  induction l with
  | nil => intro a; rfl
  | cons x xs ih =>
      intro a
      rw [List.foldl_cons, ih]
      by_cases hp : p x = true
      · rw [List.filter_cons_of_pos hp, if_pos hp]
        cases hys : xs.filter p with
        | nil => simp [hys]
        | cons y ys =>
            rw [List.getLast?_cons_cons]
            have hsome : ((y :: ys).getLast?).isSome := by
              rw [List.getLast?_isSome]; exact List.cons_ne_nil y ys
            obtain ⟨z, hz⟩ := Option.isSome_iff_exists.mp hsome
            rw [hz]; rfl
      · rw [List.filter_cons_of_neg hp, if_neg hp]

/-- The scroll-spy loop computes the last section whose adjusted window
contains the trigger point, defaulting to the previous active section. -/
theorem spyCompute_eq_lastMatch (layout : String → Option Elem) (scrollY : ℤ)
    (a : String) :
    spyCompute layout scrollY a
      = ((SECTIONS.filter (spyWindowHit layout scrollY)).getLast?).getD a := by
  have hstep : spySectionStep layout (scrollY + 300)
      = fun current sid => if spyWindowHit layout scrollY sid then sid
          else current := by
    funext current sid
    unfold spySectionStep spyWindowHit
    cases layout sid with
    | none => simp
    | some el => simp
  show SECTIONS.foldl (spySectionStep layout (scrollY + 300)) a
    = ((SECTIONS.filter (spyWindowHit layout scrollY)).getLast?).getD a
  rw [hstep, foldl_lastMatch]

/-- `parseFloat` of the empty string is NaN. -/
theorem parseFloat_empty : parseFloat "" = none := rfl

/-- `parseInt10` of the empty string is NaN. -/
theorem parseInt10_empty : parseInt10 "" = none := rfl

/-- JS `%` agrees with the euclidean remainder on nonnegative operands. -/
theorem jsMod_eq_emod (a b : ℤ) (ha : 0 ≤ a) (hb : 0 ≤ b) :
    jsMod a b = a % b :=
  Int.tmod_eq_emod ha hb

/-- A committed age value stays all-digits across one change event. -/
theorem handleAgeChange_keeps_digits (s val : String)
    (hs : s.data.all Char.isDigit = true) :
    (handleAgeChange s val).data.all Char.isDigit = true := by
  unfold handleAgeChange
  split_ifs with h
  · rcases h with rfl | hall
    · rfl
    · unfold regexAllDigits at hall
      exact (Bool.and_eq_true _ _).mp hall |>.2
  · exact hs

/-- A committed age value stays all-digits across any event sequence. -/
theorem age_change_foldl (events : List String) :
    ∀ start : String, start.data.all Char.isDigit = true →
      ((events.foldl handleAgeChange start).data.all Char.isDigit = true) := by
  induction events with
  | nil => intro s hs; exact hs
  | cons v vs ih =>
      intro s hs
      exact ih _ (handleAgeChange_keeps_digits s v hs)

/-! ## Claim theorems -/

/-- C9: the `NumberInput` `onInput` handler enforces nothing but the soft
length cap: any value longer than 10 characters is truncated to its first 10
characters, every other value (including the empty one) is left unchanged —
in particular no value is ever rejected for being non-numeric or out of
range. -/
theorem number_input_soft_cap (val : String) :
    (numberInputOnInput val = if 10 < val.length then val.take 10 else val) ∧
    (numberInputOnInput val = val ∨ numberInputOnInput val = val.take 10) := by
  unfold numberInputOnInput
  by_cases h0 : val = ""
  · subst h0; simp
  · rw [if_neg h0]
    split_ifs with hl
    · exact ⟨rfl, Or.inr rfl⟩
    · exact ⟨rfl, Or.inl rfl⟩

/-- C10: clicking the nav item of the already-active section is a complete
no-op: the whole app state (active section, every expanded flag, the
manual-scroll lock) is returned unchanged and no settle timer — hence no
scroll request — is scheduled, even when the active section is collapsed. -/
theorem nav_click_active_noop (s : AppState) (id : String)
    (h : s.activeSectionId = id) :
    scrollToSectionClick s id = (s, false) := by
  unfold scrollToSectionClick
  rw [if_pos h]

/-- Witness for C10 at a collapsed-but-active `exam` section. -/
theorem nav_click_active_noop_witness :
    scrollToSectionClick noopS0 "exam" = (noopS0, false) :=
  nav_click_active_noop noopS0 "exam" rfl

/-- C8: the committed age state always matches all-digits-or-empty (starting
from the initial empty state, over any sequence of change events), and a
change event whose value contains a non-digit character never commits,
leaving the previous state in place. -/
theorem age_change_digits_invariant (events : List String) :
    ((events.foldl handleAgeChange "").data.all Char.isDigit = true) ∧
    (∀ s val : String, (∃ c ∈ val.data, c.isDigit = false) →
      handleAgeChange s val = s) := by
  refine ⟨age_change_foldl events "" rfl, ?_⟩
  rintro s val ⟨c, hc, hcd⟩
  unfold handleAgeChange
  rw [if_neg]
  rintro (rfl | hall)
  · simp at hc
  · unfold regexAllDigits at hall
    have hd := List.all_eq_true.mp ((Bool.and_eq_true _ _).mp hall).2 c hc
    rw [hcd] at hd
    cases hd

/-- Witness for C8: a letter-bearing change event is dropped. -/
theorem age_change_digits_invariant_witness :
    (((["1", "19", "199", "1990"].foldl handleAgeChange "").data.all
        Char.isDigit) = true) ∧
    handleAgeChange "42" "4a" = "42" := by
  refine ⟨(age_change_digits_invariant ["1", "19", "199", "1990"]).1, ?_⟩
  exact (age_change_digits_invariant []).2 "42" "4a" ⟨'a', by decide, by decide⟩

/-- C6: on blur, an age value parsing as an integer `y` with
`1900 < y ≤ currentYear` is replaced by the string form of
`currentYear - y`; an empty value, an unparseable value, or a value parsing
outside that range is left unchanged. -/
theorem age_blur_year_heuristic (currentYear : ℤ) (age : String) :
    (∀ y : ℤ, parseInt10 age = some y → 1900 < y → y ≤ currentYear →
      handleAgeBlur currentYear age = toString (currentYear - y)) ∧
    (age = "" → handleAgeBlur currentYear age = age) ∧
    (parseInt10 age = none → handleAgeBlur currentYear age = age) ∧
    (∀ y : ℤ, parseInt10 age = some y → (y ≤ 1900 ∨ currentYear < y) →
      handleAgeBlur currentYear age = age) := by
  refine ⟨?_, ?_, ?_, ?_⟩
  · intro y hy h1 h2
    have ha : age ≠ "" := by
      rintro rfl; rw [parseInt10_empty] at hy; cases hy
    unfold handleAgeBlur
    rw [if_neg ha]
    simp only [hy]
    rw [if_pos ⟨h1, h2⟩]
  · intro h; unfold handleAgeBlur; rw [if_pos h]
  · intro h
    by_cases ha : age = ""
    · unfold handleAgeBlur; rw [if_pos ha]
    · unfold handleAgeBlur; rw [if_neg ha]; simp only [h]
  · intro y hy hout
    have ha : age ≠ "" := by
      rintro rfl; rw [parseInt10_empty] at hy; cases hy
    unfold handleAgeBlur
    rw [if_neg ha]
    simp only [hy]
    rw [if_neg]
    rintro ⟨hgt, hle⟩
    rcases hout with h | h
    · exact absurd hgt (not_lt.mpr h)
    · exact absurd hle (not_le.mpr h)

/-- Witness for C6: with current year 2024, "1990" blurs to "34" and "15" is
left unchanged. -/
theorem age_blur_year_heuristic_witness :
    handleAgeBlur 2024 "1990" = "34" ∧ handleAgeBlur 2024 "15" = "15" := by
  constructor
  · have h := (age_blur_year_heuristic 2024 "1990").1 1990 (by decide)
      (by decide) (by decide)
    exact h.trans (by decide)
  · exact (age_blur_year_heuristic 2024 "15").2.2.2 15 (by decide)
      (Or.inl (by decide))

/-- C5: in an open menu over `N > 0` options with active index
`i ∈ [0, N)`, ArrowDown moves the active index and the focused option to
`(i + 1) mod N` (so the last index wraps to 0) and ArrowUp moves them to
`(i - 1 + N) mod N`. -/
theorem menu_arrow_wrap (options : List String) (s : SelectState)
    (hN : 0 < options.length) (h0 : 0 ≤ s.activeIndex)
    (hi : s.activeIndex < (options.length : ℤ)) :
    ((handleMenuKeyDown options s MenuKey.arrowDown).activeIndex
        = (s.activeIndex + 1) % (options.length : ℤ)) ∧
    ((handleMenuKeyDown options s MenuKey.arrowDown).focusRequest
        = some ((s.activeIndex + 1) % (options.length : ℤ))) ∧
    ((handleMenuKeyDown options s MenuKey.arrowUp).activeIndex
        = (s.activeIndex - 1 + (options.length : ℤ)) % (options.length : ℤ)) ∧
    ((handleMenuKeyDown options s MenuKey.arrowUp).focusRequest
        = some ((s.activeIndex - 1 + (options.length : ℤ))
            % (options.length : ℤ))) ∧
    (s.activeIndex = (options.length : ℤ) - 1 →
      (handleMenuKeyDown options s MenuKey.arrowDown).activeIndex = 0) ∧
    (0 ≤ (handleMenuKeyDown options s MenuKey.arrowDown).activeIndex ∧
      (handleMenuKeyDown options s MenuKey.arrowDown).activeIndex
        < (options.length : ℤ)) := by
  have hne : options.length ≠ 0 := Nat.pos_iff_ne_zero.mp hN
  have hNZ : (0 : ℤ) < (options.length : ℤ) := by exact_mod_cast hN
  have hdown : jsMod (s.activeIndex + 1) (options.length : ℤ)
      = (s.activeIndex + 1) % (options.length : ℤ) :=
    jsMod_eq_emod _ _ (by omega) (by omega)
  have hup : jsMod (s.activeIndex - 1 + (options.length : ℤ))
      (options.length : ℤ)
      = (s.activeIndex - 1 + (options.length : ℤ)) % (options.length : ℤ) :=
    jsMod_eq_emod _ _ (by omega) (by omega)
  have hD : handleMenuKeyDown options s MenuKey.arrowDown
      = { s with
          activeIndex := jsMod (s.activeIndex + 1) (options.length : ℤ),
          focusRequest :=
            some (jsMod (s.activeIndex + 1) (options.length : ℤ)) } := by
    unfold handleMenuKeyDown; rw [if_neg hne]
  have hU : handleMenuKeyDown options s MenuKey.arrowUp
      = { s with
          activeIndex :=
            jsMod (s.activeIndex - 1 + (options.length : ℤ))
              (options.length : ℤ),
          focusRequest :=
            some (jsMod (s.activeIndex - 1 + (options.length : ℤ))
              (options.length : ℤ)) } := by
    unfold handleMenuKeyDown; rw [if_neg hne]
  refine ⟨?_, ?_, ?_, ?_, ?_, ?_⟩
  · rw [hD]; exact hdown
  · rw [hD]; simp only [hdown]
  · rw [hU]; exact hup
  · rw [hU]; simp only [hup]
  · intro hlast
    rw [hD]
    show jsMod (s.activeIndex + 1) (options.length : ℤ) = 0
    rw [hdown, hlast]
    simp
  · rw [hD]
    show 0 ≤ jsMod (s.activeIndex + 1) (options.length : ℤ) ∧
      jsMod (s.activeIndex + 1) (options.length : ℤ) < (options.length : ℤ)
    rw [hdown]
    exact ⟨Int.emod_nonneg _ (by omega), Int.emod_lt_of_pos _ hNZ⟩

/-- Witness for C5: on the three gender options, ArrowDown from the last
index 2 wraps to 0, ArrowUp from 2 moves to 1. -/
theorem menu_arrow_wrap_witness :
    ((handleMenuKeyDown selOptions selWrapS MenuKey.arrowDown).activeIndex
        = 0) ∧
    ((handleMenuKeyDown selOptions selWrapS MenuKey.arrowUp).activeIndex
        = 1) := by
  have h := menu_arrow_wrap selOptions selWrapS (by decide) (by decide)
    (by decide)
  exact ⟨by rw [h.1]; decide, by rw [h.2.2.1]; decide⟩

/-- C2: with the manual-scroll lock clear, a scroll event makes the active
section the last section of `[identity, concern, hpi, ros, background,
exam, plan]` whose adjusted window (from `offsetTop - 140` through
`offsetTop - 140 + offsetHeight + 100`, half-open) contains the trigger
point `scrollY + 300`; when no section's window contains it, the previously
active section is retained (`getD` of an empty last-match). -/
theorem scroll_spy_last_match (layout : String → Option Elem) (scrollY : ℤ)
    (s : AppState) (hlock : s.isManualScrolling = false) :
    (handleScroll layout scrollY s).activeSectionId
      = ((SECTIONS.filter (spyWindowHit layout scrollY)).getLast?).getD
          s.activeSectionId := by
  have hcond : ¬ (s.isManualScrolling = true) := by
    rw [hlock]; exact Bool.false_ne_true
  unfold handleScroll
  rw [if_neg hcond]
  show (if spyCompute layout scrollY s.activeSectionId = s.activeSectionId
      then s
      else { s with
        activeSectionId :=
          spyCompute layout scrollY s.activeSectionId }).activeSectionId = _
  rw [← spyCompute_eq_lastMatch]
  split_ifs with h
  · exact h.symm
  · rfl

/-- Witness for C2: with `identity` at 0 (height 400) and `concern` at 500
(height 300), scrolling to 300 puts the trigger point 600 inside `concern`'s
window only, activating `concern`. -/
theorem scroll_spy_last_match_witness :
    (handleScroll layoutW 300 stateW).activeSectionId = "concern" := by
  have h := scroll_spy_last_match layoutW 300 stateW rfl
  rw [h]
  decide

/-- C3: clicking the nav item of a non-active section immediately makes it
the active section and sets its expanded flag, and the settle-delay timer
then emits a smooth scroll whose target offset is the section's document top
(`rect.top + pageYOffset`) minus the 110px header offset. -/
theorem nav_click_scrolls (s : AppState) (id : String)
    (rectTop : String → Option ℤ) (pageY t : ℤ)
    (hne : s.activeSectionId ≠ id) (hel : rectTop id = some t) :
    ((scrollToSectionClick s id).1.activeSectionId = id) ∧
    ((scrollToSectionClick s id).1.expandedSections id = true) ∧
    ((scrollToSectionClick s id).2 = true) ∧
    ((scrollToSectionTimeout (scrollToSectionClick s id).1 id rectTop
        pageY).2.1 = some { top := t + pageY + (-110), smooth := true }) := by
  have h1 : (scrollToSectionClick s id).1
      = { activeSectionId := id,
          expandedSections := fun k => if k = id then true
            else s.expandedSections k,
          isManualScrolling := true } := by
    unfold scrollToSectionClick; rw [if_neg hne]
  refine ⟨by rw [h1], by rw [h1]; simp, ?_, ?_⟩
  · unfold scrollToSectionClick; rw [if_neg hne]
  · rw [h1]
    unfold scrollToSectionTimeout
    simp [hel]

/-- Witness for C3: clicking `hpi` (document top 1000, page offset 250)
activates and expands it and requests a smooth scroll to 1140. -/
theorem nav_click_scrolls_witness :
    ((scrollToSectionClick stateW "hpi").1.activeSectionId = "hpi") ∧
    ((scrollToSectionClick stateW "hpi").1.expandedSections "hpi" = true) ∧
    ((scrollToSectionClick stateW "hpi").2 = true) ∧
    ((scrollToSectionTimeout (scrollToSectionClick stateW "hpi").1 "hpi"
        navRect 250).2.1 = some { top := 1140, smooth := true }) := by
  have h := nav_click_scrolls stateW "hpi" navRect 250 1000 (by decide)
    (by decide)
  exact ⟨h.1, h.2.1, h.2.2.1, h.2.2.2.trans (by decide)⟩

/-- C7: while the manual-scroll lock is set a scroll event leaves the whole
state unchanged (the handler exits before recomputation); the scroll handler
never changes the lock; a navigation click on a non-active section sets the
lock in the same synchronous step that changes the active section (so the
lock is set before the settle-delay timer can emit the smooth scroll); the
scroll-emitting timer phase preserves the lock and schedules the fixed
unlock timeout, which alone clears it. -/
theorem manual_scroll_lock (s : AppState) (layout : String → Option Elem)
    (scrollY : ℤ) (id : String) (rectTop : String → Option ℤ) (pageY : ℤ) :
    (s.isManualScrolling = true → handleScroll layout scrollY s = s) ∧
    ((handleScroll layout scrollY s).isManualScrolling
        = s.isManualScrolling) ∧
    (s.activeSectionId ≠ id →
      (scrollToSectionClick s id).1.isManualScrolling = true ∧
      (scrollToSectionClick s id).1.activeSectionId = id) ∧
    (∀ t, rectTop id = some t →
      (scrollToSectionTimeout s id rectTop pageY).1.isManualScrolling
          = s.isManualScrolling ∧
      (scrollToSectionTimeout s id rectTop pageY).2.2 = true) ∧
    ((scrollUnlockTimeout s).isManualScrolling = false) := by
  refine ⟨?_, ?_, ?_, ?_, rfl⟩
  · intro h; unfold handleScroll; rw [if_pos h]
  · unfold handleScroll
    show (if s.isManualScrolling = true then s
      else if spyCompute layout scrollY s.activeSectionId
          = s.activeSectionId then s
        else { s with
          activeSectionId :=
            spyCompute layout scrollY s.activeSectionId }).isManualScrolling
      = s.isManualScrolling
    split_ifs <;> rfl
  · intro hne
    unfold scrollToSectionClick
    rw [if_neg hne]
    exact ⟨rfl, rfl⟩
  · intro t ht
    unfold scrollToSectionTimeout
    simp [ht]

/-- Witness for C7 at a locked state: the scroll event is a no-op, a click
on `hpi` sets the lock, the timer phase schedules the unlock, and the
unlock phase clears the lock. -/
theorem manual_scroll_lock_witness :
    (handleScroll layoutW 300 lockedS = lockedS) ∧
    ((scrollToSectionClick lockedS "hpi").1.isManualScrolling = true) ∧
    ((scrollToSectionTimeout lockedS "hpi" navRect 250).2.2 = true) ∧
    ((scrollUnlockTimeout lockedS).isManualScrolling = false) := by
  have h := manual_scroll_lock lockedS layoutW 300 "hpi" navRect 250
  exact ⟨h.1 rfl, (h.2.2.1 (by decide)).1, (h.2.2.2.1 1000 (by decide)).2,
    h.2.2.2.2⟩

/-- C4: closing an open dropdown by Escape, by a click outside both the
trigger container and the floating list, or by a window scroll/resize leaves
the selected value unchanged — indeed no event other than an explicit option
selection ever changes the selected value, and selecting commits the option
and closes the list. -/
theorem select_close_preserves_value (options : List String)
    (s : SelectState) (e : SelectEvent) :
    ((∀ v, e ≠ SelectEvent.select v) →
      (selectStep options s e).internalSelected = s.internalSelected) ∧
    (∀ v, (handleSelect s v).internalSelected = v ∧
      (handleSelect s v).isOpen = false) ∧
    ((handleMenuKeyDown options s MenuKey.escape).internalSelected
        = s.internalSelected) ∧
    (options ≠ [] →
      (handleMenuKeyDown options s MenuKey.escape).isOpen = false) ∧
    ((handleGlobalClick s false false).internalSelected
        = s.internalSelected) ∧
    ((handleGlobalClick s false false).isOpen = false) ∧
    ((selectCloseOnScroll s).internalSelected = s.internalSelected) := by
  refine ⟨?_, fun v => ⟨rfl, rfl⟩, ?_, ?_, ?_, ?_, ?_⟩
  · intro hne
    cases e with
    | select v => exact absurd rfl (hne v)
    | toggle r =>
        show (toggleDropdown s r).internalSelected = s.internalSelected
        unfold toggleDropdown closeDropdown openDropdown
        split_ifs <;> rfl
    | buttonKey k r =>
        show (handleButtonKeyDown options s k r).internalSelected
          = s.internalSelected
        unfold handleButtonKeyDown openDropdown closeDropdown
        split_ifs <;> rfl
    | menuKey k =>
        show (handleMenuKeyDown options s k).internalSelected
          = s.internalSelected
        unfold handleMenuKeyDown closeDropdown
        cases k <;> split_ifs <;> rfl
    | globalClick c m =>
        show (handleGlobalClick s c m).internalSelected = s.internalSelected
        unfold handleGlobalClick
        split_ifs <;> rfl
    | windowScroll =>
        show (selectCloseOnScroll s).internalSelected = s.internalSelected
        unfold selectCloseOnScroll
        split_ifs <;> rfl
    | windowResize =>
        show (selectCloseOnScroll s).internalSelected = s.internalSelected
        unfold selectCloseOnScroll
        split_ifs <;> rfl
    | openEffect =>
        show (selectOpenEffect options s).internalSelected
          = s.internalSelected
        unfold selectOpenEffect
        split_ifs <;> rfl
  · unfold handleMenuKeyDown closeDropdown
    split_ifs <;> rfl
  · intro hopts
    unfold handleMenuKeyDown closeDropdown
    rw [if_neg (by simpa using List.length_pos.mpr hopts |>.ne')]
  · unfold handleGlobalClick; simp
  · unfold handleGlobalClick; simp
  · unfold selectCloseOnScroll; split_ifs <;> rfl

/-- Witness for C4: on the open gender dropdown with `Male` selected, a
window scroll and an Escape key leave `Male` selected, and Escape closes. -/
theorem select_close_preserves_value_witness :
    ((selectStep selOptions selS0 SelectEvent.windowScroll).internalSelected
        = "Male") ∧
    ((handleMenuKeyDown selOptions selS0 MenuKey.escape).internalSelected
        = "Male") ∧
    ((handleMenuKeyDown selOptions selS0 MenuKey.escape).isOpen = false) := by
  have h := select_close_preserves_value selOptions selS0
    SelectEvent.windowScroll
  exact ⟨h.1 (fun v hv => SelectEvent.noConfusion hv), h.2.2.1,
    h.2.2.2.1 (by decide)⟩

/-- C1 (amended): the BMI display shows `toFixed1` of `w / ((h/100)^2)`
exactly when both input strings parse as numbers (JS `parseFloat`), the
parsed height is nonzero, and the quotient lies in the open interval
(0, 100) — positivity of the parsed height is not required, since the
height is squared.  In every other case (empty input, non-numeric input,
zero height, quotient outside (0, 100)) the display is the placeholder. -/
theorem bmi_display_characterization (height weight : String) (d : ℚ) :
    bmiDisplay height weight = some d ↔
      ∃ h w : ℚ, parseFloat height = some h ∧ parseFloat weight = some w ∧
        h ≠ 0 ∧ 0 < w / (h / 100 * (h / 100)) ∧
        w / (h / 100 * (h / 100)) < 100 ∧
        d = toFixed1 (w / (h / 100 * (h / 100))) := by
  unfold bmiDisplay bmiUpdate
  by_cases hg : height = "" ∨ weight = ""
  · rw [if_pos hg]
    constructor
    · intro hx; cases hx
    · rintro ⟨h, w, hh, hw, -⟩
      rcases hg with rfl | rfl
      · rw [parseFloat_empty] at hh; cases hh
      · rw [parseFloat_empty] at hw; cases hw
  · rw [if_neg hg]
    cases hh : parseFloat height with
    | none =>
        simp only [hh]
        constructor
        · intro hx; cases hx
        · rintro ⟨h, w, hh2, hw2, -⟩
          cases hh2
    | some h =>
      cases hw : parseFloat weight with
      | none =>
          simp only [hh, hw]
          constructor
          · intro hx; cases hx
          · rintro ⟨h2, w2, hh2, hw2, -⟩
            cases hw2
      | some w =>
          simp only [hh, hw]
          constructor
          · intro hx
            by_cases h0 : h = 0
            · rw [if_pos h0] at hx; cases hx
            · rw [if_neg h0] at hx
              by_cases hq : 0 < w / (h / 100 * (h / 100)) ∧
                  w / (h / 100 * (h / 100)) < 100
              · rw [if_pos hq] at hx
                refine ⟨h, w, rfl, rfl, h0, hq.1, hq.2, ?_⟩
                exact (Option.some.injEq _ _ ▸ hx).symm
              · rw [if_neg hq] at hx; cases hx
          · rintro ⟨h2, w2, hh2, hw2, h0, hq1, hq2, hd⟩
            injection hh2 with e1
            injection hw2 with e2
            subst e1
            subst e2
            rw [if_neg h0, if_pos ⟨hq1, hq2⟩, hd]
            rfl

/-- Counterexample for C1 as frozen: the height string "-170" does not parse
as a positive number, yet with weight "70" the display is not the
placeholder — it shows 24.2 (the height is squared, so its sign is
irrelevant), contradicting "in every other case the display is the
placeholder". -/
theorem bmi_negative_height_counterexample :
    parseFloat "-170" = some (-170) ∧ ¬ ((0 : ℚ) < -170) ∧
    bmiDisplay "-170" "70" = some (121 / 5) := by
  have hh : parseFloat "-170" = some (-170) := by
    have hl : parseFloatLit "-170"
        = some { neg := true, intPart := 170, fracPart := 0, fracLen := 0,
                 expNeg := false, expVal := 0 } := by decide
    rw [parseFloat, hl]
    show some (FloatLit.toRat _) = some (-170)
    norm_num [FloatLit.toRat]
  have hw : parseFloat "70" = some 70 := by
    have hl : parseFloatLit "70"
        = some { neg := false, intPart := 70, fracPart := 0, fracLen := 0,
                 expNeg := false, expVal := 0 } := by decide
    rw [parseFloat, hl]
    show some (FloatLit.toRat _) = some 70
    norm_num [FloatLit.toRat]
  refine ⟨hh, by norm_num, ?_⟩
  unfold bmiDisplay bmiUpdate
  rw [if_neg (by simp)]
  simp only [hh, hw]
  rw [if_neg (by norm_num : ¬ ((-170 : ℚ) = 0))]
  rw [if_pos (by constructor <;> norm_num)]
  show some (toFixed1 (70 / ((-170 : ℚ) / 100 * ((-170 : ℚ) / 100))))
    = some (121 / 5)
  rw [toFixed1]
  rw [show round (70 / ((-170 : ℚ) / 100 * ((-170 : ℚ) / 100)) * 10) = 242 by
    rw [round_eq, Int.floor_eq_iff]
    norm_num]
  norm_num

end MedApp
